import Mathlib

/-!
Project 01_HelloVulkan, class `Application`.

A shallow embedding of `Application.h` / `Application.cpp`.

* C strings (`const char*`, `char[256]`) are the characters before the terminating NUL,
  so a C string is a list of characters without NUL.
* The driver (Vulkan loader) and the windowing library (GLFW) are external; they are
  records of answers (`Driver`, `Glfw`) and every call to them is appended to `World.trace`.
* A member function that can `throw` returns an `Except AppError _` next to the world it
  leaves behind; effects that happened before the `throw` stay in that world.
* `uint32_t` casts are `% 2 ^ 32`.
* A pointer is an `Option`, `none` for `nullptr`; `data()` of an empty vector is `nullptr`.
-/

namespace HelloVulkan

/-! ## C strings and `strcmp` -/

/-- The terminating character of a C string. -/
def NUL : Char := Char.ofNat 0

/-- A C string: the characters before the terminating NUL. -/
abbrev CStr := { s : List Char // NUL ∉ s }

/-- The empty C string (a zero-filled `char` buffer). -/
def CStr.empty : CStr := ⟨[], by simp⟩

/-- The loop of `strcmp` on the characters before the terminators: the end of a list is
the NUL (character code 0) of that operand. -/
def strcmpChars : List Char → List Char → Int
  | [], [] => 0
  | [], b :: _ => 0 - (b.toNat : Int)
  | a :: _, [] => (a.toNat : Int) - 0
  | a :: as, b :: bs => if a = b then strcmpChars as bs else (a.toNat : Int) - (b.toNat : Int)

/-- The C library `strcmp`: zero when equal, otherwise the difference of the first
differing characters. -/
def strcmp (s1 s2 : CStr) : Int := strcmpChars s1.val s2.val

/-! ## Vulkan and GLFW types and constants

The handles, result codes, structure tags and names below are those of `vulkan.h` and
`glfw3.h`; of each record only the members the program reads or writes are kept. -/

abbrev VkResult := Int
abbrev VkBool32 := Nat
abbrev VkInstance := Nat
abbrev VkDebugUtilsMessengerEXT := Nat
abbrev GLFWwindow := Nat

def VK_SUCCESS : VkResult := 0
def VK_ERROR_OUT_OF_HOST_MEMORY : VkResult := -1
def VK_ERROR_EXTENSION_NOT_PRESENT : VkResult := -7
def VK_ERROR_INCOMPATIBLE_DRIVER : VkResult := -9

def VK_FALSE : VkBool32 := 0

def VK_STRUCTURE_TYPE_APPLICATION_INFO : Nat := 0
def VK_STRUCTURE_TYPE_INSTANCE_CREATE_INFO : Nat := 1

/-- The macro `VK_MAKE_VERSION(major, minor, patch)`. -/
def VK_MAKE_VERSION (major minor patch : Nat) : Nat :=
  ((major <<< 22) ||| (minor <<< 12) ||| patch) % 2 ^ 32

def VK_API_VERSION_1_0 : Nat := VK_MAKE_VERSION 1 0 0

def GLFW_CLIENT_API : Int := 0x00022001
def GLFW_NO_API : Int := 0
def GLFW_RESIZABLE : Int := 0x00020003
def GLFW_FALSE : Int := 0

def VK_EXT_DEBUG_UTILS_EXTENSION_NAME : CStr := ⟨"VK_EXT_debug_utils".toList, by decide⟩
def VK_LAYER_KHRONOS_validation : CStr := ⟨"VK_LAYER_KHRONOS_validation".toList, by decide⟩
def VK_KHR_surface : CStr := ⟨"VK_KHR_surface".toList, by decide⟩
def VK_KHR_win32_surface : CStr := ⟨"VK_KHR_win32_surface".toList, by decide⟩

structure VkLayerProperties where
  layerName : CStr
  specVersion : Nat
  implementationVersion : Nat
  description : CStr
deriving DecidableEq

structure VkExtensionProperties where
  extensionName : CStr
  specVersion : Nat
deriving DecidableEq

/-- A value-initialised `VkLayerProperties` (an element of a freshly sized vector). -/
def VkLayerProperties.zero : VkLayerProperties :=
  { layerName := CStr.empty, specVersion := 0, implementationVersion := 0,
    description := CStr.empty }

/-- A value-initialised `VkExtensionProperties`. -/
def VkExtensionProperties.zero : VkExtensionProperties :=
  { extensionName := CStr.empty, specVersion := 0 }

structure VkApplicationInfo where
  sType : Nat
  pApplicationName : CStr
  applicationVersion : Nat
  pEngineName : CStr
  engineVersion : Nat
  apiVersion : Nat
deriving DecidableEq

/-- The creation record; a pointer member is `none` when it is `nullptr`. -/
structure VkInstanceCreateInfo where
  sType : Nat
  pApplicationInfo : Option VkApplicationInfo
  enabledLayerCount : Nat
  ppEnabledLayerNames : Option (List CStr)
  enabledExtensionCount : Nat
  ppEnabledExtensionNames : Option (List CStr)
deriving DecidableEq

/-- The record behind `pCallbackData`. -/
structure VkDebugUtilsMessengerCallbackDataEXT where
  pMessage : CStr
  objectCount : Nat
  pObjects : List Nat
deriving DecidableEq

/-- The exceptions the program throws. -/
inductive AppError where
  | runtime_error (what : String)
deriving DecidableEq

/-- The calls that cross the driver and windowing boundaries; for an enumeration call
`fetch` tells whether the record pointer was non-null. -/
inductive Call where
  | glfwInit
  | glfwWindowHint (hint value : Int)
  | glfwCreateWindow (width height : Nat) (title : CStr)
  | glfwGetRequiredInstanceExtensions
  | glfwWindowShouldClose (window : GLFWwindow)
  | glfwPollEvents
  | glfwDestroyWindow (window : GLFWwindow)
  | glfwTerminate
  | vkEnumerateInstanceLayerProperties (fetch : Bool)
  | vkEnumerateInstanceExtensionProperties (fetch : Bool)
  | vkCreateInstance (pCreateInfo : VkInstanceCreateInfo)
  | vkDestroyInstance (inst : VkInstance)
deriving DecidableEq

/-! ## The program state and its environment -/

/-- The data members of `class Application`. -/
structure Application where
  window : GLFWwindow
  WIDTH : Nat
  HEIGHT : Nat
  vkInstance : VkInstance
  debugMessenger : VkDebugUtilsMessengerEXT
  validationLayers : List CStr
  enableValidationLayers : Bool
deriving DecidableEq

/-- The answers of the driver: the return codes of the count call and of the fetch call
of each enumeration, the records it holds, the return code of the creation call and the
handle that call stores through its output pointer (`none`: it stores nothing). -/
structure Driver where
  layerCountResult : VkResult
  layerFetchResult : VkResult
  layers : List VkLayerProperties
  extensionCountResult : VkResult
  extensionFetchResult : VkResult
  extensions : List VkExtensionProperties
  createResult : VkResult
  createStored : Option VkInstance
deriving DecidableEq

/-- The answers of the windowing library: its required instance extensions, the window
it creates and its successive answers to `glfwWindowShouldClose`. -/
structure Glfw where
  requiredInstanceExtensions : List CStr
  createdWindow : GLFWwindow
  windowShouldClose : List Bool
deriving DecidableEq

structure World where
  app : Application
  driver : Driver
  glfw : Glfw
  trace : List Call
  cout : List Char
  cerr : List Char
deriving DecidableEq

/-- The member function `data()` of `std::vector`: the array of the elements, and the
null pointer when the vector is empty. -/
def vector.data {α : Type} (v : List α) : Option (List α) :=
  if v.isEmpty then none else some v

/-! ## Driver and windowing calls -/

/-- The driver call `vkEnumerateInstanceLayerProperties(&count, pProperties)`: with a
null record pointer the driver stores the number of its layers in the count (a
`uint32_t`, so the driver holds fewer than `2 ^ 32` records); otherwise it overwrites the
first `min count n` records of the buffer and stores the number written. Yields the
return code, the count, the buffer. -/
def vkEnumerateInstanceLayerProperties (pPropertyCount : Nat)
    (pProperties : Option (List VkLayerProperties)) (w : World) :
    VkResult × Nat × Option (List VkLayerProperties) × World :=
  match pProperties with
  | none =>
    (w.driver.layerCountResult, w.driver.layers.length, none,
      { w with trace := w.trace ++ [Call.vkEnumerateInstanceLayerProperties false] })
  | some buf =>
    let written := min pPropertyCount w.driver.layers.length
    (w.driver.layerFetchResult, written,
      some (w.driver.layers.take written ++ buf.drop written),
      { w with trace := w.trace ++ [Call.vkEnumerateInstanceLayerProperties true] })

/-- The driver call `vkEnumerateInstanceExtensionProperties(nullptr, &count, pProperties)`,
which works as the one for layers. -/
def vkEnumerateInstanceExtensionProperties (pPropertyCount : Nat)
    (pProperties : Option (List VkExtensionProperties)) (w : World) :
    VkResult × Nat × Option (List VkExtensionProperties) × World :=
  match pProperties with
  | none =>
    (w.driver.extensionCountResult, w.driver.extensions.length, none,
      { w with trace := w.trace ++ [Call.vkEnumerateInstanceExtensionProperties false] })
  | some buf =>
    let written := min pPropertyCount w.driver.extensions.length
    (w.driver.extensionFetchResult, written,
      some (w.driver.extensions.take written ++ buf.drop written),
      { w with trace := w.trace ++ [Call.vkEnumerateInstanceExtensionProperties true] })

/-- The driver call `vkCreateInstance(&createInfo, nullptr, &instance)`: yields the
return code and the content of `*pInstance` after the call. -/
def vkCreateInstance (pCreateInfo : VkInstanceCreateInfo) (pInstance : VkInstance)
    (w : World) : VkResult × VkInstance × World :=
  (w.driver.createResult, w.driver.createStored.getD pInstance,
    { w with trace := w.trace ++ [Call.vkCreateInstance pCreateInfo] })

/-- The driver call `vkDestroyInstance(instance, nullptr)`. -/
def vkDestroyInstance (inst : VkInstance) (w : World) : World :=
  { w with trace := w.trace ++ [Call.vkDestroyInstance inst] }

/-- The windowing call `glfwGetRequiredInstanceExtensions(&count)`: the array and its
count (a `uint32_t`, so the library names fewer than `2 ^ 32` extensions). -/
def glfwGetRequiredInstanceExtensions (w : World) : List CStr × Nat × World :=
  (w.glfw.requiredInstanceExtensions, w.glfw.requiredInstanceExtensions.length,
    { w with trace := w.trace ++ [Call.glfwGetRequiredInstanceExtensions] })

namespace Application

/-! ## `Application` member functions -/

/-- The member function `initWindow`. -/
def initWindow (w : World) : World :=
  { w with
    app := { w.app with window := w.glfw.createdWindow }
    trace := w.trace ++
      [Call.glfwInit,
       Call.glfwWindowHint GLFW_CLIENT_API GLFW_NO_API,
       Call.glfwWindowHint GLFW_RESIZABLE GLFW_FALSE,
       Call.glfwCreateWindow w.app.WIDTH w.app.HEIGHT ⟨"Vulkan".toList, by decide⟩] }

/-- The inner loop of `checkValidationLayerSupport`: `layerFound` after scanning the
available layers, stopping at the first `strcmp(...) == 0`. -/
def layerFound (layerName : CStr) : List VkLayerProperties → Bool
  | [] => false
  | layerProperties :: rest =>
    if strcmp layerName layerProperties.layerName = 0 then true
    else layerFound layerName rest

/-- The outer loop of `checkValidationLayerSupport`: `return false` at the first layer
that was not found, `return true` after the loop. -/
def allLayersFound (availableLayers : List VkLayerProperties) : List CStr → Bool
  | [] => true
  | layerName :: rest =>
    if !layerFound layerName availableLayers then false
    else allLayersFound availableLayers rest

/-- The member function `checkValidationLayerSupport`: count call, vector of that size,
second call on `availableLayers.data()` (a fetch, or again a count call when the vector
is empty), loops. The return codes of both calls are dropped. `layerCount` has no
initialiser (here 0); the count call overwrites it. -/
def checkValidationLayerSupport (w : World) : Bool × World :=
  let (_, layerCount, _, w1) := vkEnumerateInstanceLayerProperties 0 none w
  let availableLayers := List.replicate layerCount VkLayerProperties.zero
  let (_, _, filled, w2) :=
    vkEnumerateInstanceLayerProperties layerCount (vector.data availableLayers) w1
  (allLayersFound (filled.getD availableLayers) w2.app.validationLayers, w2)

/-- The printing loop of `checkExtensionSupport`. -/
def printExtensions : List VkExtensionProperties → List Char
  | [] => []
  | extension :: rest =>
    (Char.ofNat 9 :: extension.extensionName.val) ++ (Char.ofNat 10 :: printExtensions rest)

/-- The member function `checkExtensionSupport`: count call, vector of that size, second
call on `extensions.data()` (a fetch, or again a count call when the vector is empty),
then the printout. The return codes of both calls are dropped. -/
def checkExtensionSupport (w : World) : World :=
  let (_, extensionCount, _, w1) := vkEnumerateInstanceExtensionProperties 0 none w
  let extensions := List.replicate extensionCount VkExtensionProperties.zero
  let (_, _, filled, w2) :=
    vkEnumerateInstanceExtensionProperties extensionCount (vector.data extensions) w1
  { w2 with
    cout := w2.cout ++ "available extensions:\n".toList ++
      printExtensions (filled.getD extensions) }

/-- The member function `getRequiredExtensions`. -/
def getRequiredExtensions (w : World) : List CStr × World :=
  let (glfwExtensions, glfwExtensionCount, w1) := glfwGetRequiredInstanceExtensions w
  let extensions := glfwExtensions.take glfwExtensionCount
  if w1.app.enableValidationLayers then
    (extensions ++ [VK_EXT_DEBUG_UTILS_EXTENSION_NAME], w1)
  else
    (extensions, w1)

/-- The member function `createInstance`. -/
def createInstance (w : World) : Except AppError Unit × World :=
  let (unavailable, w1) :=
    if w.app.enableValidationLayers then
      let r := checkValidationLayerSupport w
      (!r.1, r.2)
    else (false, w)
  if unavailable then
    (Except.error (AppError.runtime_error "validation layers requested, but not available!"), w1)
  else
    let appInfo : VkApplicationInfo :=
      { sType := VK_STRUCTURE_TYPE_APPLICATION_INFO
        pApplicationName := ⟨"Triangle".toList, by decide⟩
        applicationVersion := VK_MAKE_VERSION 1 0 0
        pEngineName := ⟨"No Engine".toList, by decide⟩
        engineVersion := VK_MAKE_VERSION 1 0 0
        apiVersion := VK_API_VERSION_1_0 }
    let (extensions, w2) := getRequiredExtensions w1
    let createInfo : VkInstanceCreateInfo :=
      { sType := VK_STRUCTURE_TYPE_INSTANCE_CREATE_INFO
        pApplicationInfo := some appInfo
        enabledExtensionCount := extensions.length % 2 ^ 32
        ppEnabledExtensionNames := vector.data extensions
        enabledLayerCount :=
          if w2.app.enableValidationLayers then w2.app.validationLayers.length % 2 ^ 32 else 0
        ppEnabledLayerNames :=
          if w2.app.enableValidationLayers then vector.data w2.app.validationLayers else none }
    let (result, inst, w3) := vkCreateInstance createInfo w2.app.vkInstance w2
    let w4 := { w3 with app := { w3.app with vkInstance := inst } }
    if result ≠ VK_SUCCESS then
      (Except.error (AppError.runtime_error "failed to create instance!"), w4)
    else
      (Except.ok (), w4)

/-- The member function `initVulkan`. -/
def initVulkan (w : World) : Except AppError Unit × World :=
  createInstance (checkExtensionSupport w)

/-- The `while` loop of `mainLoop` over the remaining answers of
`glfwWindowShouldClose`; `none` when the answers run out before the loop exits. -/
def mainLoopAux : List Bool → World → Option World
  | [], _ => none
  | shouldClose :: rest, w =>
    let w1 := { w with
      glfw := { w.glfw with windowShouldClose := rest }
      trace := w.trace ++ [Call.glfwWindowShouldClose w.app.window] }
    if shouldClose then some w1
    else mainLoopAux rest { w1 with trace := w1.trace ++ [Call.glfwPollEvents] }

/-- The member function `mainLoop`. -/
def mainLoop (w : World) : Option World :=
  mainLoopAux w.glfw.windowShouldClose w

/-- The member function `cleanUp`. -/
def cleanUp (w : World) : World :=
  let w1 := vkDestroyInstance w.app.vkInstance w
  { w1 with trace := w1.trace ++ [Call.glfwDestroyWindow w1.app.window, Call.glfwTerminate] }

/-- The member function `run`: an exception leaves through `run`, skipping the rest;
`none` when the main loop does not exit. -/
def run (w : World) : Option (Except AppError Unit × World) :=
  let w1 := initWindow w
  match initVulkan w1 with
  | (Except.error e, w2) => some (Except.error e, w2)
  | (Except.ok (), w2) =>
    match mainLoop w2 with
    | none => none
    | some w3 => some (Except.ok (), cleanUp w3)

/-- The member function `setupDebugMessenger`: the early return when validation is off,
an empty body otherwise. -/
def setupDebugMessenger (w : World) : World :=
  if !w.app.enableValidationLayers then w
  else w

/-- The static member function `debugCallback`: writes the message to `std::cerr` and
returns `VK_FALSE`. -/
def debugCallback (messageSeverity : Nat) (messageType : Nat)
    (pCallbackData : VkDebugUtilsMessengerCallbackDataEXT) (pUserData : Nat)
    (w : World) : VkBool32 × World :=
  (VK_FALSE,
    { w with cerr := w.cerr ++ "validation layer: ".toList ++ pCallbackData.pMessage.val ++
      [Char.ofNat 10] })

end Application

/-! ## Vocabulary of the statements -/

namespace Application

/-- The creation record `createInstance` fills in, for the members of `app` and the list
`extensions` returned by `getRequiredExtensions`. -/
def createInfoFor (app : Application) (extensions : List CStr) : VkInstanceCreateInfo :=
  { sType := VK_STRUCTURE_TYPE_INSTANCE_CREATE_INFO
    pApplicationInfo := some
      { sType := VK_STRUCTURE_TYPE_APPLICATION_INFO
        pApplicationName := ⟨"Triangle".toList, by decide⟩
        applicationVersion := VK_MAKE_VERSION 1 0 0
        pEngineName := ⟨"No Engine".toList, by decide⟩
        engineVersion := VK_MAKE_VERSION 1 0 0
        apiVersion := VK_API_VERSION_1_0 }
    enabledExtensionCount := extensions.length % 2 ^ 32
    ppEnabledExtensionNames := vector.data extensions
    enabledLayerCount :=
      if app.enableValidationLayers then app.validationLayers.length % 2 ^ 32 else 0
    ppEnabledLayerNames :=
      if app.enableValidationLayers then vector.data app.validationLayers else none }

/-- The two calls of the layer enumeration: the count call, then the call on the vector,
whose record pointer is null when the driver has no layer. -/
def layerQueryCalls (w : World) : List Call :=
  [Call.vkEnumerateInstanceLayerProperties false,
   Call.vkEnumerateInstanceLayerProperties (!w.driver.layers.isEmpty)]

/-- The two calls of the extension enumeration: the count call, then the call on the
vector, whose record pointer is null when the driver has no extension. -/
def extensionQueryCalls (w : World) : List Call :=
  [Call.vkEnumerateInstanceExtensionProperties false,
   Call.vkEnumerateInstanceExtensionProperties (!w.driver.extensions.isEmpty)]

/-- The calls `createInstance` makes before the creation call. -/
def callsBeforeCreate (w : World) : List Call :=
  (if w.app.enableValidationLayers then layerQueryCalls w else []) ++
    [Call.glfwGetRequiredInstanceExtensions]

/-- The calls of `initWindow`. -/
def initWindowCalls (w : World) : List Call :=
  [Call.glfwInit, Call.glfwWindowHint GLFW_CLIENT_API GLFW_NO_API,
   Call.glfwWindowHint GLFW_RESIZABLE GLFW_FALSE,
   Call.glfwCreateWindow w.app.WIDTH w.app.HEIGHT ⟨"Vulkan".toList, by decide⟩]

/-- The world `w` with the four return codes of the enumeration calls replaced. -/
def withQueryResults (w : World) (layerCount layerFetch extCount extFetch : VkResult) : World :=
  { w with driver := { w.driver with
      layerCountResult := layerCount
      layerFetchResult := layerFetch
      extensionCountResult := extCount
      extensionFetchResult := extFetch } }

/-- The world `w` with the layers of the driver replaced. -/
def withLayers (w : World) (layers : List VkLayerProperties) : World :=
  { w with driver := { w.driver with layers := layers } }

/-- The world `w` with the extensions of the driver replaced. -/
def withExtensions (w : World) (extensions : List VkExtensionProperties) : World :=
  { w with driver := { w.driver with extensions := extensions } }

end Application

/-- Whether a call is the instance-creation call. -/
def Call.isCreate : Call → Bool
  | Call.vkCreateInstance _ => true
  | _ => false

/-- Whether a call is the instance-destruction call. -/
def Call.isDestroy : Call → Bool
  | Call.vkDestroyInstance _ => true
  | _ => false

/-- Whether a call is a layer enumeration. -/
def Call.isLayerQuery : Call → Bool
  | Call.vkEnumerateInstanceLayerProperties _ => true
  | _ => false

/-- Whether a call is an extension enumeration. -/
def Call.isExtensionQuery : Call → Bool
  | Call.vkEnumerateInstanceExtensionProperties _ => true
  | _ => false

/-- Whether a call destroys the window. -/
def Call.isDestroyWindow : Call → Bool
  | Call.glfwDestroyWindow _ => true
  | _ => false

/-- Whether a call is `glfwTerminate`. -/
def Call.isTerminate : Call → Bool
  | Call.glfwTerminate => true
  | _ => false

/-! ## Concrete drivers, windowing answers and worlds -/

/-- The data members as `Application.h` initialises them; `debug` is `_DEBUG`. The
handles have no initialiser; they start as `0`. -/
def Application.declared (debug : Bool) : Application :=
  { window := 0, WIDTH := 800, HEIGHT := 600, vkInstance := 0, debugMessenger := 0,
    validationLayers := [VK_LAYER_KHRONOS_validation], enableValidationLayers := debug }

def VK_LAYER_LUNARG_api_dump : CStr := ⟨"VK_LAYER_LUNARG_api_dump".toList, by decide⟩

def khronosLayer : VkLayerProperties :=
  { layerName := VK_LAYER_KHRONOS_validation, specVersion := VK_MAKE_VERSION 1 3 0,
    implementationVersion := 1, description := ⟨"Khronos Validation Layer".toList, by decide⟩ }

/-- A driver with the validation layer and the three extensions, every call succeeding. -/
def driverFull : Driver :=
  { layerCountResult := VK_SUCCESS, layerFetchResult := VK_SUCCESS
    layers := [khronosLayer]
    extensionCountResult := VK_SUCCESS, extensionFetchResult := VK_SUCCESS
    extensions := [⟨VK_KHR_surface, 25⟩, ⟨VK_KHR_win32_surface, 6⟩,
                   ⟨VK_EXT_DEBUG_UTILS_EXTENSION_NAME, 2⟩]
    createResult := VK_SUCCESS, createStored := some 1 }

/-- A windowing library on Windows whose window is closed at the third poll. -/
def glfwWin32 : Glfw :=
  { requiredInstanceExtensions := [VK_KHR_surface, VK_KHR_win32_surface]
    createdWindow := 7, windowShouldClose := [false, false, true] }

/-- The world at program start. -/
def World.start (app : Application) (driver : Driver) (glfw : Glfw) : World :=
  { app := app, driver := driver, glfw := glfw, trace := [], cout := [], cerr := [] }

/-- A release build on a full driver. -/
def worldRelease : World := World.start (Application.declared false) driverFull glfwWin32

/-- A debug build on a full driver. -/
def worldDebug : World := World.start (Application.declared true) driverFull glfwWin32

/-- A debug build on a driver without layers. -/
def worldNoLayers : World :=
  World.start (Application.declared true) { driverFull with layers := [] } glfwWin32

/-- A debug build that requires another layer, on a driver without layers. -/
def worldOtherLayer : World :=
  World.start { Application.declared true with validationLayers := [VK_LAYER_LUNARG_api_dump] }
    { driverFull with layers := [] } glfwWin32

/-- A debug build on a driver with the validation layer and without extensions, whose
creation call reports the missing extension. -/
def worldNoExtensions : World :=
  World.start (Application.declared true)
    { driverFull with extensions := [], createResult := VK_ERROR_EXTENSION_NOT_PRESENT,
                      createStored := none } glfwWin32

/-- A debug build whose windowing library names `2 ^ 32 - 1` extensions. -/
def worldManyExtensions : World :=
  World.start (Application.declared true) driverFull
    { glfwWin32 with requiredInstanceExtensions := List.replicate (2 ^ 32 - 1) VK_KHR_surface }

/-- A debug build on a driver whose creation call fails for lack of host memory. -/
def worldOutOfMemory : World :=
  World.start (Application.declared true)
    { driverFull with createResult := VK_ERROR_OUT_OF_HOST_MEMORY, createStored := none }
    glfwWin32

/-- A debug build on a driver whose creation call finds no compatible driver. -/
def worldIncompatible : World :=
  World.start (Application.declared true)
    { driverFull with createResult := VK_ERROR_INCOMPATIBLE_DRIVER, createStored := none }
    glfwWin32

/-- A debug build on a driver whose creation call fails and, failing, stores the handle
99 through its output pointer. -/
def worldFailsAndStores : World :=
  World.start (Application.declared true)
    { driverFull with createResult := VK_ERROR_INCOMPATIBLE_DRIVER, createStored := some 99 }
    glfwWin32

/-- A release build whose windowing library names no extension. -/
def worldNoWindowExtensions : World :=
  World.start (Application.declared false) driverFull
    { glfwWin32 with requiredInstanceExtensions := [] }

/-- A debug build on a full driver whose four enumeration calls report an error code. -/
def worldQueryErrors : World :=
  Application.withQueryResults worldDebug VK_ERROR_OUT_OF_HOST_MEMORY
    VK_ERROR_OUT_OF_HOST_MEMORY VK_ERROR_OUT_OF_HOST_MEMORY VK_ERROR_OUT_OF_HOST_MEMORY

/-- A debug build on a driver whose four enumeration calls report an error code and
return no record. -/
def worldQueryErrorsNoRecords : World :=
  Application.withQueryResults
    (World.start (Application.declared true)
      { driverFull with layers := [], extensions := [] } glfwWin32)
    VK_ERROR_OUT_OF_HOST_MEMORY VK_ERROR_OUT_OF_HOST_MEMORY
    VK_ERROR_OUT_OF_HOST_MEMORY VK_ERROR_OUT_OF_HOST_MEMORY

/-! ## Lemmas on `strcmp` and the layer check -/

theorem Char_toNat_inj {a b : Char} (h : a.toNat = b.toNat) : a = b := by
  rw [← Char.ofNat_toNat a, ← Char.ofNat_toNat b, h]

theorem toNat_ne_zero_of_ne_NUL {c : Char} (h : c ≠ NUL) : c.toNat ≠ 0 := by
  intro h0
  apply h
  rw [← Char.ofNat_toNat c, h0]
  rfl

theorem strcmpChars_eq_zero_iff (a b : List Char) (ha : NUL ∉ a) (hb : NUL ∉ b) :
    strcmpChars a b = 0 ↔ a = b := by
  induction a generalizing b with
  | nil =>
    cases b with
    | nil => simp [strcmpChars]
    | cons y ys =>
      have hy : y.toNat ≠ 0 := toNat_ne_zero_of_ne_NUL (fun h => hb (by simp [h]))
      simp only [strcmpChars]
      constructor
      · intro h; omega
      · intro h; cases h
  | cons x xs ih =>
    have hx : x.toNat ≠ 0 := toNat_ne_zero_of_ne_NUL (fun h => ha (by simp [h]))
    cases b with
    | nil =>
      simp only [strcmpChars]
      constructor
      · intro h; omega
      · intro h; cases h
    | cons y ys =>
      have hxs : NUL ∉ xs := fun h => ha (List.mem_cons_of_mem _ h)
      have hys : NUL ∉ ys := fun h => hb (List.mem_cons_of_mem _ h)
      simp only [strcmpChars]
      by_cases hxy : x = y
      · subst hxy
        simp [ih ys hxs hys]
      · have hne : x.toNat ≠ y.toNat := fun h => hxy (Char_toNat_inj h)
        simp only [hxy, if_false]
        constructor
        · intro h; omega
        · intro h
          exact absurd (List.cons.inj h).1 hxy

/-- The function `strcmp` returns zero exactly on equal strings. -/
theorem strcmp_eq_zero_iff (s1 s2 : CStr) : strcmp s1 s2 = 0 ↔ s1 = s2 := by
  unfold strcmp
  rw [strcmpChars_eq_zero_iff s1.val s2.val s1.property s2.property]
  exact Subtype.ext_iff.symm

namespace Application

theorem layerFound_iff (layerName : CStr) (availableLayers : List VkLayerProperties) :
    layerFound layerName availableLayers = true ↔
      ∃ p ∈ availableLayers, layerName = p.layerName := by
  induction availableLayers with
  | nil => simp [layerFound]
  | cons p rest ih =>
    simp only [layerFound, strcmp_eq_zero_iff]
    by_cases h : layerName = p.layerName
    · simp [h]
    · simp [h, ih]

theorem allLayersFound_iff (availableLayers : List VkLayerProperties) (required : List CStr) :
    allLayersFound availableLayers required = true ↔
      ∀ n ∈ required, ∃ p ∈ availableLayers, n = p.layerName := by
  induction required with
  | nil => simp [allLayersFound]
  | cons n rest ih =>
    simp only [allLayersFound]
    by_cases h : layerFound n availableLayers = true
    · have h2 := (layerFound_iff n availableLayers).1 h
      simp only [h, Bool.not_true, Bool.false_eq_true, if_false, ih, List.mem_cons,
        forall_eq_or_imp]
      exact ⟨fun hr => ⟨h2, hr⟩, fun hr => hr.2⟩
    · have h2 : ¬ ∃ p ∈ availableLayers, n = p.layerName :=
        fun hp => h ((layerFound_iff n availableLayers).2 hp)
      simp only [Bool.not_eq_true] at h
      simp only [h, Bool.not_false, if_true, List.mem_cons, forall_eq_or_imp]
      constructor
      · intro hf; cases hf
      · intro hr; exact absurd hr.1 h2

/-- The array of a vector that is not empty. -/
theorem vector_data_of_ne_nil {α : Type} (v : List α) (h : v ≠ []) :
    vector.data v = some v := by
  cases v with
  | nil => exact absurd rfl h
  | cons a rest => rfl

/-- Whatever `data()` returns, the array it denotes holds the elements of the vector. -/
theorem vector_data_getD {α : Type} (v : List α) : (vector.data v).getD [] = v := by
  cases v <;> rfl

/-- The vector handed to the loops of `checkValidationLayerSupport` holds exactly the
records of the driver. -/
theorem checkValidationLayerSupport_fst (w : World) :
    (checkValidationLayerSupport w).1 =
      allLayersFound w.driver.layers w.app.validationLayers := by
  cases hl : w.driver.layers with
  | nil => simp [checkValidationLayerSupport, vkEnumerateInstanceLayerProperties, vector.data, hl]
  | cons p rest =>
    simp [checkValidationLayerSupport, vkEnumerateInstanceLayerProperties, vector.data, hl,
      List.replicate_succ]

/-- The effect of `checkValidationLayerSupport`: the two enumeration calls, nothing else. -/
theorem checkValidationLayerSupport_snd (w : World) :
    (checkValidationLayerSupport w).2 = { w with trace := w.trace ++ layerQueryCalls w } := by
  cases hl : w.driver.layers with
  | nil =>
    simp [checkValidationLayerSupport, vkEnumerateInstanceLayerProperties, vector.data, hl,
      layerQueryCalls]
  | cons p rest =>
    simp [checkValidationLayerSupport, vkEnumerateInstanceLayerProperties, vector.data, hl,
      layerQueryCalls, List.replicate_succ]

/-- The list `getRequiredExtensions` returns. -/
theorem getRequiredExtensions_fst (w : World) :
    (getRequiredExtensions w).1 =
      if w.app.enableValidationLayers then
        w.glfw.requiredInstanceExtensions ++ [VK_EXT_DEBUG_UTILS_EXTENSION_NAME]
      else w.glfw.requiredInstanceExtensions := by
  by_cases h : w.app.enableValidationLayers = true <;>
    simp [getRequiredExtensions, glfwGetRequiredInstanceExtensions, h]

/-- The effect of `getRequiredExtensions`: one call to the windowing library. -/
theorem getRequiredExtensions_snd (w : World) :
    (getRequiredExtensions w).2 =
      { w with trace := w.trace ++ [Call.glfwGetRequiredInstanceExtensions] } := by
  by_cases h : w.app.enableValidationLayers = true <;>
    simp [getRequiredExtensions, glfwGetRequiredInstanceExtensions, h]

/-- The effect of `checkExtensionSupport`: the two enumeration calls and the printout. -/
theorem checkExtensionSupport_eq (w : World) :
    checkExtensionSupport w =
      { w with
        trace := w.trace ++ extensionQueryCalls w
        cout := w.cout ++ "available extensions:\n".toList ++
          printExtensions w.driver.extensions } := by
  cases hl : w.driver.extensions with
  | nil =>
    simp [checkExtensionSupport, vkEnumerateInstanceExtensionProperties, vector.data, hl,
      extensionQueryCalls]
  | cons p rest =>
    simp [checkExtensionSupport, vkEnumerateInstanceExtensionProperties, vector.data, hl,
      extensionQueryCalls, List.replicate_succ]

/-- What `createInstance` does when the layer check fails. -/
theorem createInstance_unavailable (w : World) (he : w.app.enableValidationLayers = true)
    (hl : allLayersFound w.driver.layers w.app.validationLayers = false) :
    createInstance w =
      (Except.error (AppError.runtime_error "validation layers requested, but not available!"),
       { w with trace := w.trace ++ layerQueryCalls w }) := by
  simp [createInstance, he, checkValidationLayerSupport_fst, checkValidationLayerSupport_snd, hl]

/-- What `createInstance` does when validation is off or the layer check passes. -/
theorem createInstance_proceed (w : World)
    (h : w.app.enableValidationLayers = false ∨
      allLayersFound w.driver.layers w.app.validationLayers = true) :
    createInstance w =
      (if w.driver.createResult ≠ VK_SUCCESS then
         Except.error (AppError.runtime_error "failed to create instance!")
       else Except.ok (),
       { w with
         app := { w.app with vkInstance := w.driver.createStored.getD w.app.vkInstance }
         trace := w.trace ++ callsBeforeCreate w ++
           [Call.vkCreateInstance (createInfoFor w.app (getRequiredExtensions w).1)] }) := by
  by_cases he : w.app.enableValidationLayers = true
  · have hl : allLayersFound w.driver.layers w.app.validationLayers = true := by
      rcases h with h | h
      · rw [he] at h; cases h
      · exact h
    by_cases hr : w.driver.createResult = VK_SUCCESS <;>
      simp [createInstance, he, checkValidationLayerSupport_fst, checkValidationLayerSupport_snd,
        hl, getRequiredExtensions, glfwGetRequiredInstanceExtensions, vkCreateInstance,
        createInfoFor, callsBeforeCreate, layerQueryCalls, hr]
  · simp only [Bool.not_eq_true] at he
    by_cases hr : w.driver.createResult = VK_SUCCESS <;>
      simp [createInstance, he, getRequiredExtensions, glfwGetRequiredInstanceExtensions,
        vkCreateInstance, createInfoFor, callsBeforeCreate, hr]

/-- A required layer is absent exactly when the loops answer `false`. -/
theorem allLayersFound_eq_false_of_missing (availableLayers : List VkLayerProperties)
    (required : List CStr)
    (hm : ∃ n ∈ required, ∀ p ∈ availableLayers, n ≠ p.layerName) :
    allLayersFound availableLayers required = false := by
  rcases hm with ⟨n, hn, hp⟩
  cases hf : allLayersFound availableLayers required with
  | false => rfl
  | true =>
    rcases (allLayersFound_iff availableLayers required).1 hf n hn with ⟨p, hpa, hnp⟩
    exact absurd hnp (hp p hpa)

/-- The layer check lets `createInstance` go on: validation is off or the loops answer
`true`. -/
theorem proceed_of_layers_present (w : World)
    (h : w.app.enableValidationLayers = true →
      ∀ n ∈ w.app.validationLayers, ∃ p ∈ w.driver.layers, n = p.layerName) :
    w.app.enableValidationLayers = false ∨
      allLayersFound w.driver.layers w.app.validationLayers = true := by
  by_cases he : w.app.enableValidationLayers = true
  · exact Or.inr ((allLayersFound_iff _ _).2 (h he))
  · simp only [Bool.not_eq_true] at he
    exact Or.inl he

/-- The calls of the layer enumeration are neither creation, destruction nor teardown of
the window. -/
theorem layerQueryCalls_clean (w : World) :
    ∀ c ∈ layerQueryCalls w, c.isCreate = false ∧ c.isDestroy = false ∧
      c.isDestroyWindow = false ∧ c.isTerminate = false ∧ c.isExtensionQuery = false := by
  intro c hc
  simp only [layerQueryCalls, List.mem_cons, List.mem_singleton, List.not_mem_nil,
    or_false] at hc
  rcases hc with hc | hc <;> subst hc <;> exact ⟨rfl, rfl, rfl, rfl, rfl⟩

/-- The calls of the extension enumeration are neither creation, destruction nor teardown
of the window. -/
theorem extensionQueryCalls_clean (w : World) :
    ∀ c ∈ extensionQueryCalls w, c.isCreate = false ∧ c.isDestroy = false ∧
      c.isDestroyWindow = false ∧ c.isTerminate = false := by
  intro c hc
  simp only [extensionQueryCalls, List.mem_cons, List.mem_singleton, List.not_mem_nil,
    or_false] at hc
  rcases hc with hc | hc <;> subst hc <;> exact ⟨rfl, rfl, rfl, rfl⟩

/-- The calls before the creation call are neither creation, destruction nor teardown of
the window, and no extension enumeration. -/
theorem callsBeforeCreate_clean (w : World) :
    ∀ c ∈ callsBeforeCreate w, c.isCreate = false ∧ c.isDestroy = false ∧
      c.isDestroyWindow = false ∧ c.isTerminate = false ∧ c.isExtensionQuery = false := by
  intro c hc
  unfold callsBeforeCreate at hc
  rcases List.mem_append.1 hc with h1 | h1
  · cases he : w.app.enableValidationLayers
    · rw [he] at h1
      cases h1
    · rw [he] at h1
      exact layerQueryCalls_clean w c h1
  · rw [List.mem_singleton] at h1
    subst h1
    exact ⟨rfl, rfl, rfl, rfl, rfl⟩

/-- The calls of `initWindow` are neither creation, destruction nor teardown of the
window. -/
theorem initWindowCalls_clean (w : World) :
    ∀ c ∈ initWindowCalls w, c.isCreate = false ∧ c.isDestroy = false ∧
      c.isDestroyWindow = false ∧ c.isTerminate = false := by
  intro c hc
  simp only [initWindowCalls, List.mem_cons, List.mem_singleton, List.not_mem_nil,
    or_false] at hc
  rcases hc with hc | hc | hc | hc <;> subst hc <;> exact ⟨rfl, rfl, rfl, rfl⟩

/-- The extension names of the creation record. -/
theorem createInfoFor_names (app : Application) (extensions : List CStr) :
    (createInfoFor app extensions).ppEnabledExtensionNames = vector.data extensions := rfl

/-- The extension count of the creation record: the `uint32_t` cast of the size. -/
theorem createInfoFor_count (app : Application) (extensions : List CStr) :
    (createInfoFor app extensions).enabledExtensionCount = extensions.length % 2 ^ 32 := rfl

/-- What `initVulkan` does when the layer check fails. -/
theorem initVulkan_unavailable (w : World) (he : w.app.enableValidationLayers = true)
    (hl : allLayersFound w.driver.layers w.app.validationLayers = false) :
    initVulkan w =
      (Except.error (AppError.runtime_error "validation layers requested, but not available!"),
       { w with
         trace := w.trace ++ (extensionQueryCalls w ++ layerQueryCalls w)
         cout := w.cout ++ "available extensions:\n".toList ++
           printExtensions w.driver.extensions }) := by
  have h1 := createInstance_unavailable (checkExtensionSupport w)
    (by rw [checkExtensionSupport_eq]; exact he) (by rw [checkExtensionSupport_eq]; exact hl)
  unfold initVulkan
  rw [h1, checkExtensionSupport_eq]
  simp [layerQueryCalls]

/-- What `initVulkan` does when validation is off or the layer check passes. -/
theorem initVulkan_proceed (w : World)
    (h : w.app.enableValidationLayers = false ∨
      allLayersFound w.driver.layers w.app.validationLayers = true) :
    initVulkan w =
      (if w.driver.createResult ≠ VK_SUCCESS then
         Except.error (AppError.runtime_error "failed to create instance!")
       else Except.ok (),
       { w with
         app := { w.app with vkInstance := w.driver.createStored.getD w.app.vkInstance }
         trace := w.trace ++ (extensionQueryCalls w ++ callsBeforeCreate w) ++
           [Call.vkCreateInstance (createInfoFor w.app (getRequiredExtensions w).1)]
         cout := w.cout ++ "available extensions:\n".toList ++
           printExtensions w.driver.extensions }) := by
  have h1 := createInstance_proceed (checkExtensionSupport w)
    (by rw [checkExtensionSupport_eq]; exact h)
  unfold initVulkan
  rw [h1, checkExtensionSupport_eq]
  simp [getRequiredExtensions_fst, callsBeforeCreate, layerQueryCalls]

/-- The main loop exits as soon as an answer is `true`; until then it only asks the
window and polls events, and it leaves the data members alone. -/
theorem mainLoopAux_exits (answers : List Bool) (h : true ∈ answers) (w : World) :
    ∃ w1 calls, mainLoopAux answers w = some w1 ∧ w1.app = w.app ∧
      w1.trace = w.trace ++ calls ∧
      ∀ c ∈ calls, c = Call.glfwWindowShouldClose w.app.window ∨ c = Call.glfwPollEvents := by
  induction answers generalizing w with
  | nil => cases h
  | cons a rest ih =>
    cases a with
    | true =>
      exact ⟨_, [Call.glfwWindowShouldClose w.app.window], rfl, rfl, rfl, by
        intro c hc
        rw [List.mem_singleton] at hc
        exact Or.inl hc⟩
    | false =>
      have hr : true ∈ rest := by
        rcases List.mem_cons.1 h with h1 | h1
        · cases h1
        · exact h1
      rcases ih hr
        { w with
          glfw := { w.glfw with windowShouldClose := rest }
          trace := (w.trace ++ [Call.glfwWindowShouldClose w.app.window]) ++
            [Call.glfwPollEvents] } with ⟨w1, calls, hm, ha, ht, hc⟩
      refine ⟨w1, [Call.glfwWindowShouldClose w.app.window, Call.glfwPollEvents] ++ calls,
        ?_, ha, ?_, ?_⟩
      · simpa [mainLoopAux] using hm
      · rw [ht]
        simp
      · intro c hcm
        rcases List.mem_append.1 hcm with h1 | h1
        · simp only [List.mem_cons, List.mem_singleton, List.not_mem_nil, or_false] at h1
          exact h1
        · exact hc c h1

/-- A list on which a test of calls fails everywhere counts none. -/
theorem countP_eq_zero_of_false (test : Call → Bool) (calls : List Call)
    (h : ∀ c ∈ calls, test c = false) : calls.countP test = 0 := by
  rw [List.countP_eq_zero]
  intro c hc
  simp [h c hc]

/-! ## The claims -/

/-- C1: `checkValidationLayerSupport` returns true if and only if every required layer
name equals the `layerName` of some available layer; `createInstance` throws the
"validation layers requested, but not available!" error exactly when validation is
enabled and that fails, so never when every required layer is present; and the check
returns true for an empty requirement list. -/
theorem C1_checkValidationLayerSupport_iff (w : World) :
    ((checkValidationLayerSupport w).1 = true ↔
      ∀ n ∈ w.app.validationLayers, ∃ p ∈ w.driver.layers, n = p.layerName) ∧
    ((createInstance w).1 =
        Except.error (AppError.runtime_error "validation layers requested, but not available!") ↔
      (w.app.enableValidationLayers = true ∧
        ¬ ∀ n ∈ w.app.validationLayers, ∃ p ∈ w.driver.layers, n = p.layerName)) ∧
    (checkValidationLayerSupport { w with app := { w.app with validationLayers := [] } }).1
      = true := by
  refine ⟨?_, ?_, ?_⟩
  · rw [checkValidationLayerSupport_fst, allLayersFound_iff]
  · rw [← allLayersFound_iff]
    by_cases he : w.app.enableValidationLayers = true
    · cases hl : allLayersFound w.driver.layers w.app.validationLayers with
      | false => simp [createInstance_unavailable w he hl, he]
      | true =>
        rw [createInstance_proceed w (Or.inr hl)]
        by_cases hr : w.driver.createResult = VK_SUCCESS <;> simp [hr]
    · simp only [Bool.not_eq_true] at he
      rw [createInstance_proceed w (Or.inl he)]
      by_cases hr : w.driver.createResult = VK_SUCCESS <;> simp [hr, he]
  · rw [checkValidationLayerSupport_fst]
    rfl

/-- C2 fails as stated: with the required layer `VK_LAYER_KHRONOS_validation` and no
available layers `createInstance` throws a runtime error whose text is "validation layers
requested, but not available!"; the text does not contain the name, and the very same
error is thrown when the missing layer is `VK_LAYER_LUNARG_api_dump`. -/
theorem C2_error_does_not_name_the_layer :
    worldNoLayers.app.validationLayers = [VK_LAYER_KHRONOS_validation] ∧
    worldOtherLayer.app.validationLayers = [VK_LAYER_LUNARG_api_dump] ∧
    worldNoLayers.driver.layers = [] ∧ worldOtherLayer.driver.layers = [] ∧
    VK_LAYER_KHRONOS_validation ≠ VK_LAYER_LUNARG_api_dump ∧
    (createInstance worldNoLayers).1 =
      Except.error (AppError.runtime_error "validation layers requested, but not available!") ∧
    (createInstance worldOtherLayer).1 = (createInstance worldNoLayers).1 ∧
    ¬ VK_LAYER_KHRONOS_validation.val <:+:
      "validation layers requested, but not available!".toList := by
  refine ⟨rfl, rfl, rfl, rfl, by decide, ?_, ?_, by decide⟩
  · rw [createInstance_unavailable worldNoLayers rfl rfl]
  · rw [createInstance_unavailable worldNoLayers rfl rfl,
      createInstance_unavailable worldOtherLayer rfl rfl]

/-- C2, amended: when validation layers are enabled and some required layer name is
absent from the available layers, `createInstance` fails with the runtime error
"validation layers requested, but not available!", whichever layer is missing. -/
theorem C2_missing_layer_throws (w : World) (he : w.app.enableValidationLayers = true)
    (hm : ∃ n ∈ w.app.validationLayers, ∀ p ∈ w.driver.layers, n ≠ p.layerName) :
    (createInstance w).1 =
      Except.error (AppError.runtime_error "validation layers requested, but not available!") := by
  rw [createInstance_unavailable w he (allLayersFound_eq_false_of_missing _ _ hm)]

/-- C2, amended, at the scenario of the specification. -/
theorem C2_missing_layer_throws_witness :
    (createInstance worldNoLayers).1 =
      Except.error (AppError.runtime_error "validation layers requested, but not available!") :=
  C2_missing_layer_throws worldNoLayers rfl
    ⟨VK_LAYER_KHRONOS_validation, by decide, by decide⟩

/-- C3 fails as stated: with no available extension at all, the windowing extensions
`VK_KHR_surface`, `VK_KHR_win32_surface` required and debug tooling enabled, `initVulkan`
still issues the creation call, naming both and `VK_EXT_debug_utils`; it fails only
afterwards, on the code of that call. -/
theorem C3_creation_call_with_absent_extension :
    worldNoExtensions.driver.extensions = [] ∧
    worldNoExtensions.glfw.requiredInstanceExtensions = [VK_KHR_surface, VK_KHR_win32_surface] ∧
    worldNoExtensions.app.enableValidationLayers = true ∧
    (∃ info,
      (initVulkan worldNoExtensions).2.trace.getLast? = some (Call.vkCreateInstance info) ∧
      info.ppEnabledExtensionNames =
        some [VK_KHR_surface, VK_KHR_win32_surface, VK_EXT_DEBUG_UTILS_EXTENSION_NAME]) ∧
    (initVulkan worldNoExtensions).1 =
      Except.error (AppError.runtime_error "failed to create instance!") := by
  refine ⟨rfl, rfl, rfl, ⟨_, rfl, rfl⟩, rfl⟩

/-- C3, amended: `initVulkan` never compares required with available extensions.
`checkExtensionSupport` only makes the two enumeration calls and prints the available
names; it changes nothing else and has no way to fail. The outcome of `initVulkan`, the
data members it leaves and all its calls but the two extension enumerations are the same
for every set of available extensions. Unless the validation-layer check throws, it
issues the creation call, as its only creation call, with exactly the list of
`getRequiredExtensions`: the array is `data()` of that list and the count its size. -/
theorem C3_extensions_not_checked (w : World) :
    ((checkExtensionSupport w).app = w.app ∧ (checkExtensionSupport w).driver = w.driver ∧
      (checkExtensionSupport w).glfw = w.glfw ∧ (checkExtensionSupport w).cerr = w.cerr ∧
      (checkExtensionSupport w).cout =
        w.cout ++ "available extensions:\n".toList ++ printExtensions w.driver.extensions ∧
      (checkExtensionSupport w).trace =
        w.trace ++ [Call.vkEnumerateInstanceExtensionProperties false,
          Call.vkEnumerateInstanceExtensionProperties (!w.driver.extensions.isEmpty)]) ∧
    (∀ available : List VkExtensionProperties,
      (initVulkan (withExtensions w available)).1 = (initVulkan w).1 ∧
      (initVulkan (withExtensions w available)).2.app = (initVulkan w).2.app ∧
      (initVulkan (withExtensions w available)).2.trace.filter (fun c => !c.isExtensionQuery) =
        (initVulkan w).2.trace.filter (fun c => !c.isExtensionQuery)) ∧
    ((w.app.enableValidationLayers = true →
        ∀ n ∈ w.app.validationLayers, ∃ p ∈ w.driver.layers, n = p.layerName) →
      ∃ pre info, (initVulkan w).2.trace = w.trace ++ pre ++ [Call.vkCreateInstance info] ∧
        (∀ c ∈ pre, c.isCreate = false) ∧
        info.ppEnabledExtensionNames = vector.data (getRequiredExtensions w).1 ∧
        info.ppEnabledExtensionNames.getD [] = (getRequiredExtensions w).1 ∧
        info.enabledExtensionCount = (getRequiredExtensions w).1.length % 2 ^ 32) := by
  refine ⟨?_, ?_, ?_⟩
  · rw [checkExtensionSupport_eq]
    exact ⟨rfl, rfl, rfl, rfl, rfl, rfl⟩
  · have key : ∀ available : List VkExtensionProperties,
        (initVulkan (withExtensions w available)).1 = (initVulkan w).1 ∧
        (initVulkan (withExtensions w available)).2.app = (initVulkan w).2.app ∧
        (initVulkan (withExtensions w available)).2.trace.filter (fun c => !c.isExtensionQuery) =
          w.trace.filter (fun c => !c.isExtensionQuery) ++
            ((initVulkan w).2.trace.drop (w.trace.length + 2)) := by
      intro available
      have hq : ∀ v : World, (extensionQueryCalls v).filter (fun c => !c.isExtensionQuery) = [] :=
        fun v => rfl
      have hk : ∀ l : List Call, (∀ c ∈ l, c.isExtensionQuery = false) →
          l.filter (fun c => !c.isExtensionQuery) = l := by
        intro l hl
        rw [List.filter_eq_self]
        intro c hc
        simp [hl c hc]
      have hlen : ∀ v : World, (extensionQueryCalls v).length = 2 := fun v => rfl
      have hcb : callsBeforeCreate (withExtensions w available) = callsBeforeCreate w := rfl
      have hge : (getRequiredExtensions (withExtensions w available)).1 =
          (getRequiredExtensions w).1 := by
        rw [getRequiredExtensions_fst, getRequiredExtensions_fst]
        rfl
      by_cases he : w.app.enableValidationLayers = true
      · cases hl : allLayersFound w.driver.layers w.app.validationLayers with
        | false =>
          rw [initVulkan_unavailable w he hl,
            initVulkan_unavailable (withExtensions w available) he hl]
          refine ⟨rfl, rfl, ?_⟩
          show (w.trace ++ (extensionQueryCalls (withExtensions w available) ++
              layerQueryCalls w)).filter (fun c => !c.isExtensionQuery) =
            w.trace.filter (fun c => !c.isExtensionQuery) ++
              (w.trace ++ (extensionQueryCalls w ++ layerQueryCalls w)).drop
                (w.trace.length + 2)
          rw [List.filter_append, List.filter_append, hq,
            hk _ (fun c hc => (layerQueryCalls_clean w c hc).2.2.2.2),
            List.drop_append, List.drop_append_of_le_length (by rw [hlen])]
          simp [hlen]
        | true =>
          rw [initVulkan_proceed w (Or.inr hl),
            initVulkan_proceed (withExtensions w available) (Or.inr hl)]
          refine ⟨rfl, rfl, ?_⟩
          show (w.trace ++ (extensionQueryCalls (withExtensions w available) ++
              callsBeforeCreate (withExtensions w available)) ++
              [Call.vkCreateInstance (createInfoFor w.app
                (getRequiredExtensions (withExtensions w available)).1)]).filter
                (fun c => !c.isExtensionQuery) =
            w.trace.filter (fun c => !c.isExtensionQuery) ++
              (w.trace ++ (extensionQueryCalls w ++ callsBeforeCreate w) ++
                [Call.vkCreateInstance (createInfoFor w.app (getRequiredExtensions w).1)]).drop
                (w.trace.length + 2)
          rw [hcb, hge]
          simp only [List.filter_append, hq, List.nil_append, List.append_assoc,
            hk _ (fun c hc => (callsBeforeCreate_clean w c hc).2.2.2.2)]
          rw [List.drop_append, List.drop_append_of_le_length (by rw [hlen])]
          simp [hlen, List.filter, Call.isExtensionQuery]
      · simp only [Bool.not_eq_true] at he
        rw [initVulkan_proceed w (Or.inl he),
          initVulkan_proceed (withExtensions w available) (Or.inl he)]
        refine ⟨rfl, rfl, ?_⟩
        show (w.trace ++ (extensionQueryCalls (withExtensions w available) ++
            callsBeforeCreate (withExtensions w available)) ++
            [Call.vkCreateInstance (createInfoFor w.app
              (getRequiredExtensions (withExtensions w available)).1)]).filter
              (fun c => !c.isExtensionQuery) =
          w.trace.filter (fun c => !c.isExtensionQuery) ++
            (w.trace ++ (extensionQueryCalls w ++ callsBeforeCreate w) ++
              [Call.vkCreateInstance (createInfoFor w.app (getRequiredExtensions w).1)]).drop
              (w.trace.length + 2)
        rw [hcb, hge]
        simp only [List.filter_append, hq, List.nil_append, List.append_assoc,
          hk _ (fun c hc => (callsBeforeCreate_clean w c hc).2.2.2.2)]
        rw [List.drop_append, List.drop_append_of_le_length (by rw [hlen])]
        simp [hlen, List.filter, Call.isExtensionQuery]
    intro available
    have h1 := key available
    have h2 := key w.driver.extensions
    have hw : withExtensions w w.driver.extensions = w := rfl
    rw [hw] at h2
    exact ⟨h1.1, h1.2.1, h1.2.2.trans h2.2.2.symm⟩
  · intro h
    rw [initVulkan_proceed w (proceed_of_layers_present w h)]
    refine ⟨extensionQueryCalls w ++ callsBeforeCreate w, _, rfl, ?_, rfl, ?_, rfl⟩
    · intro c hc
      rcases List.mem_append.1 hc with hc | hc
      · exact (extensionQueryCalls_clean w c hc).1
      · exact (callsBeforeCreate_clean w c hc).1
    · exact vector_data_getD _

/-- C3, amended, on a debug build whose driver has no extension: the creation call is
issued with the three required names, and the outcome is the one on a driver that has
them all. -/
theorem C3_extensions_not_checked_witness :
    (initVulkan (withExtensions worldNoExtensions driverFull.extensions)).1 =
      (initVulkan worldNoExtensions).1 ∧
    ∃ pre info, (initVulkan worldNoExtensions).2.trace =
        worldNoExtensions.trace ++ pre ++ [Call.vkCreateInstance info] ∧
      (∀ c ∈ pre, c.isCreate = false) ∧
      info.ppEnabledExtensionNames = vector.data (getRequiredExtensions worldNoExtensions).1 ∧
      info.ppEnabledExtensionNames.getD [] = (getRequiredExtensions worldNoExtensions).1 ∧
      info.enabledExtensionCount = (getRequiredExtensions worldNoExtensions).1.length % 2 ^ 32 :=
  ⟨((C3_extensions_not_checked worldNoExtensions).2.1 driverFull.extensions).1,
   (C3_extensions_not_checked worldNoExtensions).2.2 (fun _ => by decide)⟩

/-- C4: when validation layers are enabled and some required layer is not available,
`createInstance` throws after the two layer-enumeration calls only: no creation call is
issued and the data members, the instance handle among them, are unchanged. -/
theorem C4_no_creation_call_on_missing_layer (w : World)
    (he : w.app.enableValidationLayers = true)
    (hm : ∃ n ∈ w.app.validationLayers, ∀ p ∈ w.driver.layers, n ≠ p.layerName) :
    (∃ e, (createInstance w).1 = Except.error e) ∧
    (∃ calls, (createInstance w).2.trace = w.trace ++ calls ∧
      ∀ c ∈ calls, c.isCreate = false) ∧
    (createInstance w).2.app.vkInstance = w.app.vkInstance ∧
    (createInstance w).2.app = w.app := by
  rw [createInstance_unavailable w he (allLayersFound_eq_false_of_missing _ _ hm)]
  exact ⟨⟨_, rfl⟩, ⟨_, rfl, fun c hc => (layerQueryCalls_clean w c hc).1⟩, rfl, rfl⟩

/-- C4 at a debug build on a driver without layers. -/
theorem C4_no_creation_call_on_missing_layer_witness :
    (∃ e, (createInstance worldNoLayers).1 = Except.error e) ∧
    (∃ calls, (createInstance worldNoLayers).2.trace = worldNoLayers.trace ++ calls ∧
      ∀ c ∈ calls, c.isCreate = false) ∧
    (createInstance worldNoLayers).2.app.vkInstance = worldNoLayers.app.vkInstance ∧
    (createInstance worldNoLayers).2.app = worldNoLayers.app :=
  C4_no_creation_call_on_missing_layer worldNoLayers rfl
    ⟨VK_LAYER_KHRONOS_validation, by decide, by decide⟩

/-- C5 fails as stated: when the windowing library names `2 ^ 32 - 1` extensions and
debug tooling is enabled, `getRequiredExtensions` returns `2 ^ 32` names and
`createInstance` passes that list with the count `0`, not its length. -/
theorem C5_count_wraps_around :
    worldManyExtensions.glfw.requiredInstanceExtensions.length = 2 ^ 32 - 1 ∧
    (getRequiredExtensions worldManyExtensions).1.length = 2 ^ 32 ∧
    ∃ info, (createInstance worldManyExtensions).2.trace.getLast? =
        some (Call.vkCreateInstance info) ∧
      info.ppEnabledExtensionNames = some (getRequiredExtensions worldManyExtensions).1 ∧
      info.enabledExtensionCount = 0 := by
  have hlen : (getRequiredExtensions worldManyExtensions).1.length = 2 ^ 32 := by
    rw [getRequiredExtensions_fst]
    show (List.replicate (2 ^ 32 - 1) VK_KHR_surface ++
      [VK_EXT_DEBUG_UTILS_EXTENSION_NAME]).length = 2 ^ 32
    rw [List.length_append, List.length_replicate]
    rfl
  have hne : (getRequiredExtensions worldManyExtensions).1 ≠ [] := by
    intro h0
    rw [h0] at hlen
    exact absurd hlen (by decide)
  refine ⟨List.length_replicate _ _, hlen, ?_⟩
  rw [createInstance_proceed worldManyExtensions (Or.inr rfl)]
  refine ⟨_, List.getLast?_concat _, ?_, ?_⟩
  · rw [createInfoFor_names, vector_data_of_ne_nil _ hne]
  · rw [createInfoFor_count, hlen]
    exact Nat.mod_self _

/-- C5, amended: `getRequiredExtensions` returns exactly the list of the windowing
library when debug tooling is disabled and that list followed by "VK_EXT_debug_utils"
when it is enabled, for every list. Unless the layer check throws, `createInstance`
issues one creation call, whose name array is `data()` of this list, so holds exactly
its names, and whose count is its length modulo `2 ^ 32`, which is its length whenever
the list has fewer than `2 ^ 32` names. -/
theorem C5_required_extensions (w : World) :
    (getRequiredExtensions w).1 =
      (if w.app.enableValidationLayers then
        w.glfw.requiredInstanceExtensions ++ [VK_EXT_DEBUG_UTILS_EXTENSION_NAME]
       else w.glfw.requiredInstanceExtensions) ∧
    VK_EXT_DEBUG_UTILS_EXTENSION_NAME.val = "VK_EXT_debug_utils".toList ∧
    ((w.app.enableValidationLayers = true →
        ∀ n ∈ w.app.validationLayers, ∃ p ∈ w.driver.layers, n = p.layerName) →
      ∃ pre info,
        (createInstance w).2.trace = w.trace ++ pre ++ [Call.vkCreateInstance info] ∧
        (∀ c ∈ pre, c.isCreate = false) ∧
        info.ppEnabledExtensionNames = vector.data (getRequiredExtensions w).1 ∧
        info.ppEnabledExtensionNames.getD [] = (getRequiredExtensions w).1 ∧
        info.enabledExtensionCount = (getRequiredExtensions w).1.length % 2 ^ 32 ∧
        ((getRequiredExtensions w).1.length < 2 ^ 32 →
          info.enabledExtensionCount = (getRequiredExtensions w).1.length)) := by
  refine ⟨getRequiredExtensions_fst w, rfl, ?_⟩
  intro h
  rw [createInstance_proceed w (proceed_of_layers_present w h)]
  exact ⟨_, _, rfl, fun c hc => (callsBeforeCreate_clean w c hc).1, rfl, vector_data_getD _,
    rfl, fun hlt => Nat.mod_eq_of_lt hlt⟩

/-- C5 at the scenario of the specification: the two windowing extensions with debug
tooling disabled are returned and passed on as they are, with the count 2; and when the
windowing library names no extension, the array passed is null and the count 0. -/
theorem C5_required_extensions_witness :
    ((getRequiredExtensions worldRelease).1 = [VK_KHR_surface, VK_KHR_win32_surface] ∧
      ∃ pre info, (createInstance worldRelease).2.trace =
          worldRelease.trace ++ pre ++ [Call.vkCreateInstance info] ∧
        info.ppEnabledExtensionNames = some [VK_KHR_surface, VK_KHR_win32_surface] ∧
        info.enabledExtensionCount = 2) ∧
    ((getRequiredExtensions worldNoWindowExtensions).1 = [] ∧
      ∃ pre info, (createInstance worldNoWindowExtensions).2.trace =
          worldNoWindowExtensions.trace ++ pre ++ [Call.vkCreateInstance info] ∧
        info.ppEnabledExtensionNames = none ∧
        info.enabledExtensionCount = 0) := by
  constructor
  · have hc := C5_required_extensions worldRelease
    have hl : (getRequiredExtensions worldRelease).1 =
        [VK_KHR_surface, VK_KHR_win32_surface] := hc.1
    rcases hc.2.2 (fun he => by cases he) with ⟨pre, info, ht, _, hn, _, _, hlen⟩
    refine ⟨hl, pre, info, ht, ?_, ?_⟩
    · rw [hn, hl]
      rfl
    · rw [hlen (by rw [hl]; decide), hl]
      rfl
  · have hc := C5_required_extensions worldNoWindowExtensions
    have hl : (getRequiredExtensions worldNoWindowExtensions).1 = [] := hc.1
    rcases hc.2.2 (fun he => by cases he) with ⟨pre, info, ht, _, hn, _, _, hlen⟩
    refine ⟨hl, pre, info, ht, ?_, ?_⟩
    · rw [hn, hl]
      rfl
    · rw [hlen (by rw [hl]; decide), hl]
      rfl

/-- C6 fails as stated: the error thrown when the creation call reports
`VK_ERROR_OUT_OF_HOST_MEMORY` is the error thrown when it reports
`VK_ERROR_INCOMPATIBLE_DRIVER`: a runtime error with the text "failed to create
instance!" and no driver code. And when the failing creation call has stored the handle
99 through its output pointer, the instance member, 0 before, holds 99 after the throw. -/
theorem C6_error_does_not_carry_the_code :
    worldOutOfMemory.driver.createResult = VK_ERROR_OUT_OF_HOST_MEMORY ∧
    worldIncompatible.driver.createResult = VK_ERROR_INCOMPATIBLE_DRIVER ∧
    VK_ERROR_OUT_OF_HOST_MEMORY ≠ VK_ERROR_INCOMPATIBLE_DRIVER ∧
    (createInstance worldOutOfMemory).1 =
      Except.error (AppError.runtime_error "failed to create instance!") ∧
    (createInstance worldIncompatible).1 = (createInstance worldOutOfMemory).1 ∧
    worldFailsAndStores.driver.createResult = VK_ERROR_INCOMPATIBLE_DRIVER ∧
    worldFailsAndStores.driver.createStored = some 99 ∧
    (createInstance worldFailsAndStores).1 =
      Except.error (AppError.runtime_error "failed to create instance!") ∧
    worldFailsAndStores.app.vkInstance = 0 ∧
    (createInstance worldFailsAndStores).2.app.vkInstance = 99 := by
  refine ⟨rfl, rfl, by decide, rfl, rfl, rfl, rfl, rfl, rfl, rfl⟩

/-- C6, amended: once the layer check has passed, `createInstance` completes normally
if and only if the creation call returns `VK_SUCCESS`; for every other code it throws
the runtime error "failed to create instance!", the same for every code. It never
assigns the instance handle itself: after the call the member holds what the creation
call stored through its output pointer, and is unchanged when that call stored nothing. -/
theorem C6_creation_result (w : World)
    (h : w.app.enableValidationLayers = true →
      ∀ n ∈ w.app.validationLayers, ∃ p ∈ w.driver.layers, n = p.layerName) :
    ((createInstance w).1 = Except.ok () ↔ w.driver.createResult = VK_SUCCESS) ∧
    (w.driver.createResult ≠ VK_SUCCESS →
      (createInstance w).1 = Except.error (AppError.runtime_error "failed to create instance!")) ∧
    (createInstance w).2.app.vkInstance = w.driver.createStored.getD w.app.vkInstance ∧
    (w.driver.createStored = none → (createInstance w).2.app = w.app) := by
  rw [createInstance_proceed w (proceed_of_layers_present w h)]
  refine ⟨?_, ?_, rfl, ?_⟩
  · by_cases hr : w.driver.createResult = VK_SUCCESS <;> simp [hr]
  · intro hr
    simp [hr]
  · intro hs
    simp [hs]

/-- C6, amended, on a driver whose creation call fails for lack of host memory and stores
nothing, and on one whose failing creation call stores the handle 99. -/
theorem C6_creation_result_witness :
    (createInstance worldOutOfMemory).1 =
      Except.error (AppError.runtime_error "failed to create instance!") ∧
    (createInstance worldOutOfMemory).2.app = worldOutOfMemory.app ∧
    (createInstance worldFailsAndStores).2.app.vkInstance = 99 :=
  ⟨(C6_creation_result worldOutOfMemory (fun _ => by decide)).2.1 (by decide),
   (C6_creation_result worldOutOfMemory (fun _ => by decide)).2.2.2 rfl,
   (C6_creation_result worldFailsAndStores (fun _ => by decide)).2.2.1⟩

/-- C7 fails as stated: when all four enumeration calls report
`VK_ERROR_OUT_OF_HOST_MEMORY`, `checkValidationLayerSupport` still returns `true` from the
records, `checkExtensionSupport` still prints them, and `initVulkan` goes on to the
creation call and completes normally. When the failing calls return no record,
`checkValidationLayerSupport` returns `false` as for a driver without layers, and the
error of `initVulkan` is the one for unavailable layers. -/
theorem C7_query_errors_are_ignored :
    worldQueryErrors.driver.layerCountResult = VK_ERROR_OUT_OF_HOST_MEMORY ∧
    worldQueryErrors.driver.layerFetchResult = VK_ERROR_OUT_OF_HOST_MEMORY ∧
    worldQueryErrors.driver.extensionCountResult = VK_ERROR_OUT_OF_HOST_MEMORY ∧
    worldQueryErrors.driver.extensionFetchResult = VK_ERROR_OUT_OF_HOST_MEMORY ∧
    VK_ERROR_OUT_OF_HOST_MEMORY < 0 ∧
    (checkValidationLayerSupport worldQueryErrors).1 = true ∧
    (checkExtensionSupport worldQueryErrors).cout =
      (checkExtensionSupport worldDebug).cout ∧
    (initVulkan worldQueryErrors).1 = Except.ok () ∧
    (∃ info, (initVulkan worldQueryErrors).2.trace.getLast? =
      some (Call.vkCreateInstance info)) ∧
    worldQueryErrorsNoRecords.driver.layerCountResult = VK_ERROR_OUT_OF_HOST_MEMORY ∧
    worldQueryErrorsNoRecords.driver.extensionCountResult = VK_ERROR_OUT_OF_HOST_MEMORY ∧
    (checkValidationLayerSupport worldQueryErrorsNoRecords).1 = false ∧
    (checkExtensionSupport worldQueryErrorsNoRecords).cout = "available extensions:\n".toList ∧
    (initVulkan worldQueryErrorsNoRecords).1 =
      Except.error (AppError.runtime_error "validation layers requested, but not available!") := by
  refine ⟨rfl, rfl, rfl, rfl, by decide, rfl, rfl, rfl, ⟨_, rfl⟩, rfl, rfl, rfl, rfl, rfl⟩

/-- C7, amended: the return codes of the enumeration calls are never looked at.
Whatever the four codes are, `checkValidationLayerSupport` returns the same boolean,
computed from the returned records, `checkExtensionSupport` prints the same records, both
make the same calls, and `initVulkan` has the same outcome. -/
theorem C7_query_results_unused (w : World)
    (layerCount layerFetch extCount extFetch : VkResult) :
    (checkValidationLayerSupport (withQueryResults w layerCount layerFetch extCount extFetch)).1
      = (checkValidationLayerSupport w).1 ∧
    (checkValidationLayerSupport w).1 = allLayersFound w.driver.layers w.app.validationLayers ∧
    (checkValidationLayerSupport (withQueryResults w layerCount layerFetch extCount extFetch)).2.trace
      = (checkValidationLayerSupport w).2.trace ∧
    (checkExtensionSupport (withQueryResults w layerCount layerFetch extCount extFetch)).cout
      = (checkExtensionSupport w).cout ∧
    (checkExtensionSupport w).cout =
      w.cout ++ "available extensions:\n".toList ++ printExtensions w.driver.extensions ∧
    (checkExtensionSupport (withQueryResults w layerCount layerFetch extCount extFetch)).trace
      = (checkExtensionSupport w).trace ∧
    (initVulkan (withQueryResults w layerCount layerFetch extCount extFetch)).1
      = (initVulkan w).1 ∧
    (initVulkan (withQueryResults w layerCount layerFetch extCount extFetch)).2.trace
      = (initVulkan w).2.trace := by
  refine ⟨?_, checkValidationLayerSupport_fst w, ?_, ?_, ?_, ?_, ?_⟩
  · rw [checkValidationLayerSupport_fst, checkValidationLayerSupport_fst]
    rfl
  · rw [checkValidationLayerSupport_snd, checkValidationLayerSupport_snd]
    rfl
  · rw [checkExtensionSupport_eq, checkExtensionSupport_eq]
    rfl
  · rw [checkExtensionSupport_eq]
  · rw [checkExtensionSupport_eq, checkExtensionSupport_eq]
    rfl
  · by_cases he : w.app.enableValidationLayers = true
    · cases hl : allLayersFound w.driver.layers w.app.validationLayers with
      | false =>
        rw [initVulkan_unavailable w he hl,
          initVulkan_unavailable (withQueryResults w layerCount layerFetch extCount extFetch) he hl]
        exact ⟨rfl, rfl⟩
      | true =>
        rw [initVulkan_proceed w (Or.inr hl),
          initVulkan_proceed (withQueryResults w layerCount layerFetch extCount extFetch) (Or.inr hl)]
        exact ⟨rfl, by simp [getRequiredExtensions_fst, withQueryResults, extensionQueryCalls,
          callsBeforeCreate, layerQueryCalls]⟩
    · simp only [Bool.not_eq_true] at he
      rw [initVulkan_proceed w (Or.inl he),
        initVulkan_proceed (withQueryResults w layerCount layerFetch extCount extFetch) (Or.inl he)]
      exact ⟨rfl, by simp [getRequiredExtensions_fst, withQueryResults, extensionQueryCalls,
          callsBeforeCreate, layerQueryCalls]⟩

/-- C8: when initialisation succeeds and some answer of `glfwWindowShouldClose` is
`true` (in particular when the answers end in `true`), `run` returns normally, and the
calls it made are: calls that neither create nor destroy the instance nor destroy the
window nor terminate the windowing library; the creation call; questions to the window
and event polls only; then `vkDestroyInstance` of the instance member,
`glfwDestroyWindow` of the window member, `glfwTerminate`. So each of the four occurs
exactly once, the destruction after the creation and before the window is destroyed. -/
theorem C8_one_creation_one_destruction (w : World)
    (hinit : (initVulkan (initWindow w)).1 = Except.ok ())
    (hloop : true ∈ w.glfw.windowShouldClose) :
    ∃ w1 calls, run w = some (Except.ok (), w1) ∧ w1.trace = w.trace ++ calls ∧
      calls.countP Call.isCreate = 1 ∧ calls.countP Call.isDestroy = 1 ∧
      calls.countP Call.isDestroyWindow = 1 ∧ calls.countP Call.isTerminate = 1 ∧
      ∃ pre info mid,
        calls = pre ++ [Call.vkCreateInstance info] ++ mid ++
          [Call.vkDestroyInstance w1.app.vkInstance, Call.glfwDestroyWindow w1.app.window,
           Call.glfwTerminate] ∧
        (∀ c ∈ pre, c.isCreate = false ∧ c.isDestroy = false ∧
          c.isDestroyWindow = false ∧ c.isTerminate = false) ∧
        (∀ c ∈ mid, c = Call.glfwWindowShouldClose w1.app.window ∨ c = Call.glfwPollEvents) := by
  have hp : (initWindow w).app.enableValidationLayers = false ∨
      allLayersFound (initWindow w).driver.layers (initWindow w).app.validationLayers = true := by
    by_cases he : (initWindow w).app.enableValidationLayers = true
    · cases hl : allLayersFound (initWindow w).driver.layers
          (initWindow w).app.validationLayers with
      | true => exact Or.inr rfl
      | false =>
        rw [initVulkan_unavailable (initWindow w) he hl] at hinit
        cases hinit
    · simp only [Bool.not_eq_true] at he
      exact Or.inl he
  have hiv := initVulkan_proceed (initWindow w) hp
  have hr : (initWindow w).driver.createResult = VK_SUCCESS := by
    by_contra hne
    rw [hiv] at hinit
    simp [hne] at hinit
  rw [if_neg (not_not.2 hr)] at hiv
  rcases mainLoopAux_exits w.glfw.windowShouldClose hloop (initVulkan (initWindow w)).2
    with ⟨w3, loopCalls, hm, ha, ht, hc⟩
  have hrun : run w = some (Except.ok (), cleanUp w3) := by
    have hm2 : mainLoop (initVulkan (initWindow w)).2 = some w3 := by
      unfold mainLoop
      rw [← hm, hiv]
      rfl
    unfold run
    simp only []
    rw [hiv] at hm2 ⊢
    simp only [hm2]
  have hwin : (cleanUp w3).app.window = (initVulkan (initWindow w)).2.app.window := by
    show w3.app.window = _
    rw [ha]
  have hpre : ∀ c ∈ initWindowCalls w ++ (extensionQueryCalls w ++ callsBeforeCreate w),
      c.isCreate = false ∧ c.isDestroy = false ∧
        c.isDestroyWindow = false ∧ c.isTerminate = false := by
    intro c hcm
    rcases List.mem_append.1 hcm with h1 | h1
    · exact initWindowCalls_clean w c h1
    · rcases List.mem_append.1 h1 with h2 | h2
      · exact extensionQueryCalls_clean w c h2
      · have h3 := callsBeforeCreate_clean w c h2
        exact ⟨h3.1, h3.2.1, h3.2.2.1, h3.2.2.2.1⟩
  have hmid : ∀ c ∈ loopCalls,
      c = Call.glfwWindowShouldClose (cleanUp w3).app.window ∨ c = Call.glfwPollEvents := by
    intro c hcm
    rw [hwin]
    exact hc c hcm
  have hmidc : ∀ c ∈ loopCalls, c.isCreate = false ∧ c.isDestroy = false ∧
      c.isDestroyWindow = false ∧ c.isTerminate = false := by
    intro c hcm
    rcases hc c hcm with h1 | h1 <;> subst h1 <;> exact ⟨rfl, rfl, rfl, rfl⟩
  refine ⟨cleanUp w3,
    (initWindowCalls w ++ (extensionQueryCalls w ++ callsBeforeCreate w)) ++
      [Call.vkCreateInstance
        (createInfoFor (initWindow w).app (getRequiredExtensions (initWindow w)).1)] ++
      loopCalls ++
      [Call.vkDestroyInstance (cleanUp w3).app.vkInstance,
       Call.glfwDestroyWindow (cleanUp w3).app.window, Call.glfwTerminate],
    hrun, ?_, ?_, ?_, ?_, ?_, _, _, loopCalls, rfl, hpre, hmid⟩
  · have h1 : (cleanUp w3).trace = w3.trace ++
        [Call.vkDestroyInstance (cleanUp w3).app.vkInstance,
         Call.glfwDestroyWindow (cleanUp w3).app.window, Call.glfwTerminate] := by
      simp [cleanUp, vkDestroyInstance]
    rw [h1, ht, hiv]
    simp [initWindow, initWindowCalls, extensionQueryCalls, callsBeforeCreate, layerQueryCalls,
      List.append_assoc]
  · simp only [List.countP_append,
      countP_eq_zero_of_false Call.isCreate _ (fun c hcm => (hpre c hcm).1),
      countP_eq_zero_of_false Call.isCreate _ (fun c hcm => (hmidc c hcm).1)]
    rfl
  · simp only [List.countP_append,
      countP_eq_zero_of_false Call.isDestroy _ (fun c hcm => (hpre c hcm).2.1),
      countP_eq_zero_of_false Call.isDestroy _ (fun c hcm => (hmidc c hcm).2.1)]
    rfl
  · simp only [List.countP_append,
      countP_eq_zero_of_false Call.isDestroyWindow _ (fun c hcm => (hpre c hcm).2.2.1),
      countP_eq_zero_of_false Call.isDestroyWindow _ (fun c hcm => (hmidc c hcm).2.2.1)]
    rfl
  · simp only [List.countP_append,
      countP_eq_zero_of_false Call.isTerminate _ (fun c hcm => (hpre c hcm).2.2.2),
      countP_eq_zero_of_false Call.isTerminate _ (fun c hcm => (hmidc c hcm).2.2.2)]
    rfl

/-- C8 on a debug build whose window is closed at the third poll, with the calls of the
whole run written out. -/
theorem C8_one_creation_one_destruction_witness :
    (∃ w1 calls, run worldDebug = some (Except.ok (), w1) ∧
      w1.trace = worldDebug.trace ++ calls ∧
      calls.countP Call.isCreate = 1 ∧ calls.countP Call.isDestroy = 1 ∧
      calls.countP Call.isDestroyWindow = 1 ∧ calls.countP Call.isTerminate = 1 ∧
      ∃ pre info mid,
        calls = pre ++ [Call.vkCreateInstance info] ++ mid ++
          [Call.vkDestroyInstance w1.app.vkInstance, Call.glfwDestroyWindow w1.app.window,
           Call.glfwTerminate] ∧
        (∀ c ∈ pre, c.isCreate = false ∧ c.isDestroy = false ∧
          c.isDestroyWindow = false ∧ c.isTerminate = false) ∧
        (∀ c ∈ mid, c = Call.glfwWindowShouldClose w1.app.window ∨ c = Call.glfwPollEvents)) ∧
    (run worldDebug).map (fun r => r.2.trace) = some
      [Call.glfwInit,
       Call.glfwWindowHint GLFW_CLIENT_API GLFW_NO_API,
       Call.glfwWindowHint GLFW_RESIZABLE GLFW_FALSE,
       Call.glfwCreateWindow 800 600 ⟨"Vulkan".toList, by decide⟩,
       Call.vkEnumerateInstanceExtensionProperties false,
       Call.vkEnumerateInstanceExtensionProperties true,
       Call.vkEnumerateInstanceLayerProperties false,
       Call.vkEnumerateInstanceLayerProperties true,
       Call.glfwGetRequiredInstanceExtensions,
       Call.vkCreateInstance (createInfoFor worldDebug.app
         [VK_KHR_surface, VK_KHR_win32_surface, VK_EXT_DEBUG_UTILS_EXTENSION_NAME]),
       Call.glfwWindowShouldClose 7, Call.glfwPollEvents,
       Call.glfwWindowShouldClose 7, Call.glfwPollEvents,
       Call.glfwWindowShouldClose 7,
       Call.vkDestroyInstance 1, Call.glfwDestroyWindow 7, Call.glfwTerminate] :=
  ⟨C8_one_creation_one_destruction worldDebug rfl (by decide), rfl⟩

/-- C9: whatever the severity, the message types, the callback data, the user data and
the state of the program, `debugCallback` returns `VK_FALSE`, which is 0; so any two
calls return the same value. -/
theorem C9_debugCallback_returns_VK_FALSE :
    (∀ (messageSeverity messageType : Nat) (pCallbackData : VkDebugUtilsMessengerCallbackDataEXT)
        (pUserData : Nat) (w : World),
      (debugCallback messageSeverity messageType pCallbackData pUserData w).1 = VK_FALSE) ∧
    (∀ (s1 t1 : Nat) (d1 : VkDebugUtilsMessengerCallbackDataEXT) (u1 : Nat) (w1 : World)
        (s2 t2 : Nat) (d2 : VkDebugUtilsMessengerCallbackDataEXT) (u2 : Nat) (w2 : World),
      (debugCallback s1 t1 d1 u1 w1).1 = (debugCallback s2 t2 d2 u2 w2).1) ∧
    VK_FALSE = 0 :=
  ⟨fun _ _ _ _ _ => rfl, fun _ _ _ _ _ _ _ _ _ _ => rfl, rfl⟩

/-- C10: with validation layers disabled, `setupDebugMessenger` leaves the whole state
unchanged; `createInstance` makes exactly two calls, the query of the windowing
extensions and the creation call, which requests zero layers with a null name array, and
makes no layer enumeration; its outcome is decided by the code of the creation call
alone; and outcome, calls and data members are the same for any two lists of available
layers. -/
theorem C10_debug_disabled_path (w : World) (he : w.app.enableValidationLayers = false) :
    setupDebugMessenger w = w ∧
    (∃ info, (createInstance w).2.trace =
        w.trace ++ [Call.glfwGetRequiredInstanceExtensions, Call.vkCreateInstance info] ∧
      info.enabledLayerCount = 0 ∧ info.ppEnabledLayerNames = none) ∧
    (∃ calls, (createInstance w).2.trace = w.trace ++ calls ∧
      ∀ c ∈ calls, c.isLayerQuery = false) ∧
    (createInstance w).1 =
      (if w.driver.createResult = VK_SUCCESS then Except.ok ()
       else Except.error (AppError.runtime_error "failed to create instance!")) ∧
    (∀ layers1 layers2 : List VkLayerProperties,
      (createInstance (withLayers w layers1)).1 = (createInstance (withLayers w layers2)).1 ∧
      (createInstance (withLayers w layers1)).2.trace =
        (createInstance (withLayers w layers2)).2.trace ∧
      (createInstance (withLayers w layers1)).2.app =
        (createInstance (withLayers w layers2)).2.app) := by
  have key : ∀ layers : List VkLayerProperties,
      createInstance (withLayers w layers) =
        (if w.driver.createResult = VK_SUCCESS then Except.ok ()
         else Except.error (AppError.runtime_error "failed to create instance!"),
         { withLayers w layers with
           app := { w.app with vkInstance := w.driver.createStored.getD w.app.vkInstance }
           trace := w.trace ++ [Call.glfwGetRequiredInstanceExtensions,
             Call.vkCreateInstance (createInfoFor w.app (getRequiredExtensions w).1)] }) := by
    intro layers
    rw [createInstance_proceed (withLayers w layers) (Or.inl he)]
    by_cases hr : w.driver.createResult = VK_SUCCESS <;>
      simp [withLayers, callsBeforeCreate, he, hr, getRequiredExtensions_fst]
  have hw : withLayers w w.driver.layers = w := rfl
  have k0 := key w.driver.layers
  rw [hw] at k0
  refine ⟨?_, ?_, ?_, ?_, ?_⟩
  · simp [setupDebugMessenger]
  · rw [k0]
    exact ⟨_, rfl, by simp [createInfoFor, he], by simp [createInfoFor, he]⟩
  · rw [k0]
    refine ⟨_, rfl, ?_⟩
    intro c hc
    simp only [List.mem_cons, List.mem_singleton, List.not_mem_nil, or_false] at hc
    rcases hc with hc | hc <;> subst hc <;> rfl
  · rw [k0]
  · intro layers1 layers2
    rw [key layers1, key layers2]
    exact ⟨rfl, rfl, rfl⟩

/-- C10 on a release build. -/
theorem C10_debug_disabled_path_witness :
    setupDebugMessenger worldRelease = worldRelease ∧
    (createInstance worldRelease).1 = Except.ok () ∧
    (createInstance (withLayers worldRelease [])).1 =
      (createInstance (withLayers worldRelease [khronosLayer])).1 :=
  ⟨(C10_debug_disabled_path worldRelease rfl).1,
   (C10_debug_disabled_path worldRelease rfl).2.2.2.1,
   ((C10_debug_disabled_path worldRelease rfl).2.2.2.2 [] [khronosLayer]).1⟩

end Application

end HelloVulkan
